import Mathlib

/-!
Shallow embedding of the vaani backend's session-orchestration layer
(`backend/transport/session_manager.py`, `backend/routes/webrtc.py`,
`backend/pipeline/runner.py`, `backend/db/models.py`,
`backend/db/repositories/message_repo.py`, `backend/routes/chat.py`,
`backend/tools/calculator.py`, `backend/tools/weather.py`,
`backend/tools/__init__.py`), together with theorems settling the
specification claims about it.

Conventions of the embedding:
* Python dicts holding the session registry become association lists with
  dict insertion semantics (existing key keeps its position and is
  overwritten; a new key is appended).
* A `PipelineTask` handle is opaque; it is embedded as a `Nat` tag.
* Wall-clock instants are `Nat` seconds; MongoDB message timestamps follow
  them.  `datetime.utcnow` is monotone, so insertion order refines
  timestamp order; theorems that need this state it as a hypothesis.
* Fallible Python code returns `Except`: `Except.error` is a raised
  exception, `Except.ok` a normal return.
* External collaborators (the Groq chat-completion API, tool network
  calls, float evaluation inside the calculator) are oracles passed in as
  parameters; the surrounding control flow — branch structure, retry
  policy, `try`/`except`/`finally` discipline — is translated literally
  from the source.
-/

namespace Vaani

/-! ## transport/session_manager.py -/

/-- Opaque handle to a running Pipecat pipeline task (`PipelineTask`).
Only its identity matters to the registry, so it is embedded as a tag. -/
abbrev PipelineTask := Nat

/-- The module-level dict `_active_sessions : Dict[str, PipelineTask]`,
embedded as an association list in insertion order. -/
abbrev Registry := List (String × PipelineTask)

/-- `add_session(session_id, task)`: Python `_active_sessions[session_id] = task`.
Dict assignment: if the key is present its value is overwritten in place,
otherwise the pair is appended.  The source performs no duplicate check. -/
def add_session (session_id : String) (task : PipelineTask) (reg : Registry) :
    Registry :=
  if reg.any (fun p => decide (p.1 = session_id)) then
    reg.map (fun p => if p.1 = session_id then (session_id, task) else p)
  else
    reg ++ [(session_id, task)]

/-- `remove_session(session_id)`: deletes the entry when present
(`del _active_sessions[session_id]`), otherwise only logs a warning. -/
def remove_session (session_id : String) (reg : Registry) : Registry :=
  if reg.any (fun p => decide (p.1 = session_id)) then
    reg.filter (fun p => decide (¬ p.1 = session_id))
  else
    reg

/-- `get_session(session_id)`: dict `.get`, first match by key. -/
def get_session (session_id : String) (reg : Registry) : Option PipelineTask :=
  (reg.find? (fun p => decide (p.1 = session_id))).map (·.2)

/-- `is_session_active(session_id)`: Python `session_id in _active_sessions`. -/
def is_session_active (session_id : String) (reg : Registry) : Bool :=
  reg.any (fun p => decide (p.1 = session_id))

/-- `get_active_count()`: `len(_active_sessions)`. -/
def get_active_count (reg : Registry) : Nat := reg.length

/-! ## pipeline/runner.py and routes/webrtc.py -/

/-- The three ways `run_pipeline` can terminate: `runner.run(task)` returns
normally, the task was cancelled by the disconnect handler, or the pipeline
raised (in which case `run_pipeline` marks the session errored and
re-raises). -/
inductive PipelineOutcome where
  | completed
  | cancelled
  | raised (emsg : String)
deriving DecidableEq, Repr

/-- Effect of `run_pipeline` (pipeline/runner.py) on the in-memory session
registry.  `run_pipeline` imports only `session_repo`/`message_repo` and
never calls a `session_manager` function: on every outcome — normal
completion, cancellation, or a raised exception — the registry is
untouched.  Its persistence effects are modelled separately
(`end_session`). -/
def run_pipeline_registry_effect (_outcome : PipelineOutcome) (reg : Registry) :
    Registry :=
  reg

/-- `run_and_cleanup` (routes/webrtc.py, the background task of `/offer`):
`try: await run_pipeline(...) finally: remove_session(session_id)`.
The `finally` clause runs `remove_session` on every exit path of
`run_pipeline`, so the registry effect is `remove_session` applied after
`run_pipeline`'s (null) registry effect. -/
def run_and_cleanup (session_id : String) (outcome : PipelineOutcome)
    (reg : Registry) : Registry :=
  remove_session session_id (run_pipeline_registry_effect outcome reg)

/-! ## db/models.py -/

/-- `MessageRole`. -/
inductive MessageRole where
  | user
  | assistant
  | system
deriving DecidableEq, Repr

/-- `SessionStatus`. -/
inductive SessionStatus where
  | active
  | ended
  | error
deriving DecidableEq, Repr

/-- A persisted chat `Message` (db/models.py).  The auto-generated uuid is
dropped (no claim mentions it); `timestamp` is `datetime.utcnow` in
seconds. -/
structure Msg where
  session_id : String
  role : MessageRole
  content : String
  timestamp : Nat
deriving DecidableEq, Repr

/-- A persisted `Session` record (db/models.py).  `duration_seconds` is an
`Int` like the Python field (computed as `ended_at - started_at`). -/
structure Session where
  id : String
  started_at : Nat
  ended_at : Option Nat
  duration_seconds : Option Int
  status : SessionStatus
  message_count : Nat
deriving DecidableEq, Repr

/-- Modelled from the spec: `create_session(id)` of the persistence
collaborator (`db/repositories/session_repo.py` is not in the source tree;
only its callers in pipeline/runner.py are).  Per §6 it creates the durable
Session record; the record's field values are the `db/models.py` defaults:
`ended_at = None`, `duration_seconds = None`, `status = ACTIVE`,
`message_count = 0`, `started_at = utcnow()`. -/
def create_session (id : String) (now : Nat) : Session :=
  { id := id
    started_at := now
    ended_at := none
    duration_seconds := none
    status := SessionStatus.active
    message_count := 0 }

/-- Modelled from the spec: `end_session(id, status)` of the persistence
collaborator (session_repo is not in the source tree).  Per §6 it
"computes and stores duration": it sets `ended_at` to the current time,
`duration_seconds` to `ended_at - started_at`, and writes the given
terminal status.  Its call sites (pipeline/runner.py) pass only
`SessionStatus.ENDED` or `SessionStatus.ERROR`. -/
def end_session (s : Session) (status : SessionStatus) (now : Nat) : Session :=
  { s with
    ended_at := some now
    duration_seconds := some ((now : Int) - (s.started_at : Int))
    status := status }

/-- The Session record invariant of spec §3: `ended_at` and
`duration_seconds` both absent or both present; `status = Active` iff both
absent; when both present, `duration_seconds = ended_at - started_at`. -/
def sessionInvariant (s : Session) : Prop :=
  (s.ended_at.isSome ↔ s.duration_seconds.isSome) ∧
  (s.status = SessionStatus.active ↔
    (s.ended_at = none ∧ s.duration_seconds = none)) ∧
  (∀ e d, s.ended_at = some e → s.duration_seconds = some d →
    d = (e : Int) - (s.started_at : Int))

/-! ## db/repositories/message_repo.py -/

/-- `save_message(session_id, role, content)`: builds a `Message` (timestamp
= `utcnow`) and inserts it at the end of the collection.  The MongoDB
insert is modelled as reliable (a storage fault would raise
`DatabaseError`, which spec §7(e) treats as a non-local failure of the
whole request). -/
def save_message (db : List Msg) (session_id : String) (role : MessageRole)
    (content : String) (now : Nat) : List Msg :=
  db ++ [{ session_id := session_id, role := role, content := content,
           timestamp := now }]

/-- The documents `find({"session_id": session_id})` matches, in insertion
order. -/
def sessionMessages (db : List Msg) (session_id : String) : List Msg :=
  db.filter (fun m => decide (m.session_id = session_id))

/-- MongoDB's ascending sort key `[("timestamp", 1)]`. -/
def tsLE (a b : Msg) : Bool := decide (a.timestamp ≤ b.timestamp)

/-- Insert a message into a timestamp-sorted list, before the first element
with an equal or later timestamp.  `sortByTs` inserts each element into the
sorted remainder of the list, so the inserted message precedes the list's
elements in insertion order and placing it before equal timestamps keeps
the sort stable. -/
def insertByTs (m : Msg) : List Msg → List Msg
  | [] => [m]
  | x :: xs => if tsLE m x then m :: x :: xs else x :: insertByTs m xs

/-- Stable ascending sort by timestamp — the embedding of the query's
`sort=[("timestamp", 1)]` (ties broken by insertion order, per spec §3). -/
def sortByTs : List Msg → List Msg
  | [] => []
  | x :: xs => insertByTs x (sortByTs xs)

/-- `get_messages(session_id, limit)`: find all documents of the session,
sort by `timestamp` ascending (stably, ties by insertion order, per spec
§3), return at most `limit` of them from the front. -/
def get_messages (db : List Msg) (session_id : String) (limit : Nat) :
    List Msg :=
  (sortByTs (sessionMessages db session_id)).take limit

/-- `get_message_count(session_id)`. -/
def get_message_count (db : List Msg) (session_id : String) : Nat :=
  (sessionMessages db session_id).length

/-- `delete_session_messages(session_id)`: deletes the session's documents
and returns the deleted count. -/
def delete_session_messages (db : List Msg) (session_id : String) :
    List Msg × Nat :=
  (db.filter (fun m => decide (¬ m.session_id = session_id)),
   (sessionMessages db session_id).length)

/-- The collection is chronologically ordered: timestamps are nondecreasing
along insertion order (true of `datetime.utcnow` under a monotone clock). -/
def Chronological (db : List Msg) : Prop :=
  db.Pairwise (fun a b => tsLE a b = true)

/-! ## tools/: PyVal, the calculator handler and the weather handler -/

/-- A JSON-decoded Python value, as produced by
`json.loads(tool_call.function.arguments)` for one argument.  The only
array-typed parameter any schema declares is `urls` (array of strings), so
array elements are embedded as strings — array values only ever reach the
handlers' `try`-blocks, where every element-level fault is caught. -/
inductive PyVal where
  | str (s : String)
  | num (n : Int)
  | null
  | arr (elems : List String)
deriving DecidableEq, Repr

/-- Is this value a Python `str`? -/
def PyVal.isStr : PyVal → Bool
  | PyVal.str _ => true
  | _ => false

/-- Is this value a JSON integer? -/
def PyVal.isNum : PyVal → Bool
  | PyVal.num _ => true
  | _ => false

/-- Is this value a JSON array? -/
def PyVal.isArr : PyVal → Bool
  | PyVal.arr _ => true
  | _ => false

/-- A raised Python exception, as seen by a caller. -/
inductive PyExc where
  | attributeError
  | valueError (emsg : String)
  | typeError (emsg : String)
  | exc (emsg : String)
deriving DecidableEq, Repr

/-- `args.get(key, default)` on a JSON-object argument mapping. -/
def dictGet (args : List (String × PyVal)) (key : String) (default : PyVal) :
    PyVal :=
  match args.find? (fun p => decide (p.1 = key)) with
  | some p => p.2
  | none => default

/-- Python `s.strip()` on a `str`: drop leading and trailing whitespace. -/
def pyStripStr (s : String) : String :=
  String.mk
    (((s.toList.dropWhile Char.isWhitespace).reverse.dropWhile
        Char.isWhitespace).reverse)

/-- Python `v.strip()`: succeeds on a `str`, raises `AttributeError` on any
other value (e.g. `(5).strip()`). -/
def pyStrip (v : PyVal) : Except PyExc String :=
  match v with
  | PyVal.str s => Except.ok (pyStripStr s)
  | _ => Except.error PyExc.attributeError

/-- A single quote character, used by several source message strings. -/
def squote : String := String.singleton (Char.ofNat 39)

/-- Outcome of `safe_calculate(expression)` (tools/calculator.py).  The
float arithmetic itself is outside the embedding; what matters to the
claims is which exception class, if any, the evaluation raises, and the
handler's `except` clauses are translated literally.  `value` carries the
result already rendered by the handler's formatting code. -/
inductive CalcOutcome where
  | value (formatted : String)
  | zeroDivisionError
  | valueError (emsg : String)
  | otherExc (emsg : String)
deriving DecidableEq, Repr

/-- `calculate_handler(params)` (tools/calculator.py).  `ev` is the oracle
for `safe_calculate`.  `Except.ok r` means the handler returned after
resolving `result_callback(r)`; `Except.error` means it raised.  Note the
source computes `args.get("expression", "").strip()` BEFORE its
`try`-block, so a non-`str` argument raises out of the handler. -/
def calculate_handler (ev : String → CalcOutcome)
    (args : List (String × PyVal)) : Except PyExc String :=
  match pyStrip (dictGet args "expression" (PyVal.str "")) with
  | Except.error e => Except.error e
  | Except.ok expression =>
    Except.ok (match ev expression with
      | CalcOutcome.value formatted => expression ++ " = " ++ formatted
      | CalcOutcome.zeroDivisionError => "Error: Division by zero."
      | CalcOutcome.valueError emsg => "Invalid expression: " ++ emsg
      | CalcOutcome.otherExc emsg => "Calculation failed: " ++ emsg)

/-- Outcome of the `httpx` block of `get_weather_handler`
(tools/weather.py): geocoding found nothing (early return with a
"could not find" message), both requests succeeded (carrying the formatted
summary), a timeout, or any other exception. -/
inductive WeatherOutcome where
  | noResults
  | summary (s : String)
  | timeout
  | otherExc (emsg : String)
deriving DecidableEq, Repr

/-- `get_weather_handler(params)` (tools/weather.py).  `net` is the oracle
for the two HTTP calls, given the city and the resolved temperature unit.
As in the calculator, `args.get("city", "").strip()` runs before the
`try`-block and raises on a non-`str` city; `unit` is fetched without
`.strip()` and only compared, so it never raises. -/
def get_weather_handler (net : String → String → WeatherOutcome)
    (args : List (String × PyVal)) : Except PyExc String :=
  match pyStrip (dictGet args "city" (PyVal.str "")) with
  | Except.error e => Except.error e
  | Except.ok city =>
    let unit := dictGet args "unit" (PyVal.str "celsius")
    let temp_unit :=
      if unit = PyVal.str "celsius" then "celsius" else "fahrenheit"
    Except.ok (match net city temp_unit with
      | WeatherOutcome.noResults =>
          "Could not find weather data for " ++ squote ++ city ++ squote ++
          ". Please check the city name."
      | WeatherOutcome.summary s => s
      | WeatherOutcome.timeout =>
          "Weather request timed out for " ++ squote ++ city ++ squote ++
          ". Please try again."
      | WeatherOutcome.otherExc emsg =>
          "Could not get weather for " ++ squote ++ city ++ squote ++
          ": " ++ emsg)

/-- Python `int(v)`:
* an `int` is returned unchanged;
* a `str` parses as a decimal integer or raises `ValueError` (modelled with
  `String.toInt?`; Python additionally tolerates surrounding whitespace and
  underscores, immaterial here — either way a non-numeric string raises);
* `None` and a list raise `TypeError`. -/
def pyInt (v : PyVal) : Except PyExc Int :=
  match v with
  | PyVal.num n => Except.ok n
  | PyVal.str s =>
    match s.toInt? with
    | some n => Except.ok n
    | none => Except.error (PyExc.valueError ("invalid literal for int: " ++ s))
  | PyVal.null => Except.error (PyExc.typeError "int of NoneType")
  | PyVal.arr _ => Except.error (PyExc.typeError "int of list")

/-- Python `v[:3]`: slices a list or a string, raises `TypeError` on an
`int` or `None` (`args.get("urls", [])[:3]` in tools/web.py runs before the
`try`-block). -/
def pySlice3 (v : PyVal) : Except PyExc PyVal :=
  match v with
  | PyVal.arr elems => Except.ok (PyVal.arr (elems.take 3))
  | PyVal.str s => Except.ok (PyVal.str (String.mk (s.toList.take 3)))
  | PyVal.num _ => Except.error (PyExc.typeError "int is not subscriptable")
  | PyVal.null => Except.error (PyExc.typeError "NoneType is not subscriptable")

/-- Python `str(v)` as it appears inside f-string error messages. -/
def pyValStr : PyVal → String
  | PyVal.str s => s
  | PyVal.num n => toString n
  | PyVal.null => "None"
  | PyVal.arr elems =>
    "[" ++ String.intercalate ", "
      (elems.map (fun u => squote ++ u ++ squote)) ++ "]"

/-- Outcome of a Tavily client block (tools/search.py, tools/web.py): the
formatted result string the `try`-body computed, or a raised exception
(every fault inside the block is caught by `except Exception`). -/
inductive NetOutcome where
  | result (s : String)
  | exc (emsg : String)
deriving DecidableEq, Repr

/-- `search_web_handler(params)` (tools/search.py).  `net` is the oracle
for the Tavily search block, given query, search depth and capped result
count.  `query` and `search_depth` are plain `.get` reads (never raise);
`max_results = min(int(args.get("max_results", 3)), 5)` runs BEFORE the
`try`-block, so `int(...)` of a non-integer raises out of the handler. -/
def search_web_handler (net : PyVal → PyVal → Int → NetOutcome)
    (args : List (String × PyVal)) : Except PyExc String :=
  let query := dictGet args "query" (PyVal.str "")
  match pyInt (dictGet args "max_results" (PyVal.num 3)) with
  | Except.error e => Except.error e
  | Except.ok n =>
    let max_results := min n 5
    let search_depth := dictGet args "search_depth" (PyVal.str "basic")
    Except.ok (match net query search_depth max_results with
      | NetOutcome.result s => s
      | NetOutcome.exc emsg =>
          "Web search failed: " ++ emsg ++
          ". Please try again or answer from your knowledge.")

/-- `crawl_webpage_handler(params)` (tools/web.py).  `net` is the oracle
for the Tavily crawl block, given url, capped depth and capped page limit.
`int(args.get("max_depth", 1))` and `int(args.get("limit", 5))` run BEFORE
the `try`-block, so either `int(...)` of a non-integer raises out of the
handler. -/
def crawl_webpage_handler (net : PyVal → Int → Int → NetOutcome)
    (args : List (String × PyVal)) : Except PyExc String :=
  let url := dictGet args "url" (PyVal.str "")
  match pyInt (dictGet args "max_depth" (PyVal.num 1)) with
  | Except.error e => Except.error e
  | Except.ok d =>
    let max_depth := min d 3
    match pyInt (dictGet args "limit" (PyVal.num 5)) with
    | Except.error e => Except.error e
    | Except.ok l =>
      let limit := min l 10
      Except.ok (match net url max_depth limit with
        | NetOutcome.result s => s
        | NetOutcome.exc emsg =>
            "Failed to crawl " ++ pyValStr url ++ ": " ++ emsg)

/-- `extract_webpage_handler(params)` (tools/web.py).  `net` is the oracle
for the Tavily extract block, given the first three urls.
`urls = args.get("urls", [])[:3]` runs BEFORE the `try`-block, so slicing
a non-sliceable value (an `int` or `None`) raises out of the handler. -/
def extract_webpage_handler (net : PyVal → NetOutcome)
    (args : List (String × PyVal)) : Except PyExc String :=
  match pySlice3 (dictGet args "urls" (PyVal.arr [])) with
  | Except.error e => Except.error e
  | Except.ok urls =>
    Except.ok (match net urls with
      | NetOutcome.result s => s
      | NetOutcome.exc emsg => "Failed to extract from URLs: " ++ emsg)

/-- Outcome of the `try`-body of `get_current_time_handler`
(tools/time_tool.py): the formatted time string, the `ValueError` that
`_resolve_timezone` raises for an unknown timezone (caught by the
handler's `except ValueError`), or any other exception (caught by its
`except Exception`). -/
inductive TimeOutcome where
  | formatted (s : String)
  | valueError (emsg : String)
  | otherExc (emsg : String)
deriving DecidableEq, Repr

/-- `get_current_time_handler(params)` (tools/time_tool.py).  `clock` is
the oracle for timezone resolution and formatting.  As in the calculator,
`args.get("timezone", "UTC").strip()` runs BEFORE the `try`-block and
raises on a non-`str` value. -/
def get_current_time_handler (clock : String → TimeOutcome)
    (args : List (String × PyVal)) : Except PyExc String :=
  match pyStrip (dictGet args "timezone" (PyVal.str "UTC")) with
  | Except.error e => Except.error e
  | Except.ok timezone =>
    Except.ok (match clock timezone with
      | TimeOutcome.formatted s => s
      | TimeOutcome.valueError emsg =>
          emsg ++ ". Please provide a valid timezone like " ++ squote ++
          "India" ++ squote ++ ", " ++ squote ++ "Tokyo" ++ squote ++
          ", or " ++ squote ++ "America/New_York" ++ squote ++ "."
      | TimeOutcome.otherExc emsg =>
          "Could not get time for " ++ squote ++ timezone ++ squote ++
          ": " ++ emsg)

/-- The mapping's value for `key`, when present, is a string — the typing
the schemas declare for their string parameters. -/
def StrParam (args : List (String × PyVal)) (key : String) : Prop :=
  ∀ p ∈ args, p.1 = key → p.2.isStr = true

/-- The mapping's value for `key`, when present, is a JSON integer — the
typing the schemas declare for `max_results`, `max_depth` and `limit`. -/
def IntParam (args : List (String × PyVal)) (key : String) : Prop :=
  ∀ p ∈ args, p.1 = key → p.2.isNum = true

/-- The mapping's value for `key`, when present, is a JSON array — the
typing the `extract_webpage` schema declares for `urls`. -/
def ArrParam (args : List (String × PyVal)) (key : String) : Prop :=
  ∀ p ∈ args, p.1 = key → p.2.isArr = true

/-- The tool names registered in `TOOL_HANDLERS` (tools/__init__.py). -/
def TOOL_HANDLER_NAMES : List String :=
  ["search_web", "crawl_webpage", "extract_webpage", "get_weather",
   "calculate", "get_current_time"]

/-! ## routes/chat.py — the text-chat tool-call loop -/

/-- Python `pat in s` on strings: `startsWithChars` checks a prefix,
`hasSubChars` scans every suffix. -/
def startsWithChars : List Char → List Char → Bool
  | [], _ => true
  | _ :: _, [] => false
  | a :: as, b :: bs => a == b && startsWithChars as bs

/-- See `startsWithChars`. -/
def hasSubChars (pat : List Char) : List Char → Bool
  | [] => startsWithChars pat []
  | b :: bs => startsWithChars pat (b :: bs) || hasSubChars pat bs

/-- Python `pat in s` for strings. -/
def pyInStr (pat s : String) : Bool := hasSubChars pat.toList s.toList

instance {ε α : Type} [DecidableEq ε] [DecidableEq α] :
    DecidableEq (Except ε α) := fun a b =>
  match a, b with
  | Except.error e, Except.error f =>
    match decEq e f with
    | isTrue h => isTrue (h ▸ rfl)
    | isFalse h => isFalse (fun q => h (by injection q))
  | Except.ok x, Except.ok y =>
    match decEq x y with
    | isTrue h => isTrue (h ▸ rfl)
    | isFalse h => isFalse (fun q => h (by injection q))
  | Except.error _, Except.ok _ => isFalse (fun q => Except.noConfusion q)
  | Except.ok _, Except.error _ => isFalse (fun q => Except.noConfusion q)

/-- One entry of the OpenAI `tool_calls` array: opaque id, function name,
and the result of `json.loads` on the arguments string (`Except.error`
when the JSON is malformed and `json.loads` raises). -/
structure ToolCall where
  id : String
  name : String
  arguments : Except String (List (String × PyVal))
deriving DecidableEq

/-- One element of the local `messages` list (the conversation context):
a plain role/content entry, the assistant message carrying tool calls
(`messages.append(response_msg)`), or a tool-role result entry
(`{"role": "tool", "tool_call_id": ..., "name": ..., "content": ...}`). -/
inductive CtxEntry where
  | chat (role : MessageRole) (content : String)
  | assistantToolCalls (tcs : List ToolCall)
  | toolResult (tool_call_id : String) (name : String) (content : String)
deriving DecidableEq

/-- Outcome of one `chat.completions.create` call: a successful reply
(content, possibly `None`, plus the `tool_calls` list, empty when absent),
a raised `BadRequestError` with its rendered message, or any other raised
exception. -/
inductive LLMOutcome where
  | reply (content : Option String) (tool_calls : List ToolCall)
  | badRequest (emsg : String)
  | exn (emsg : String)
deriving DecidableEq

/-- Oracle for the three distinct `chat.completions.create` call sites of
`send_text_message`:
* `decision` — the turn-1 call (model `TOOL_USE_MODEL`, tools enabled,
  `tool_choice="auto"`);
* `retryNoTools` — the call inside the `tool_use_failed` recovery branch
  (big model, no tools);
* `final` — the turn-2 finishing call after tool execution (big model,
  no tools). -/
structure LLMEnv where
  decision : LLMOutcome
  retryNoTools : LLMOutcome
  final : LLMOutcome

/-- Outcome of running one registered tool handler on the mock params:
`done r` means the handler returned with `mock_params.result = r`
(`none` when the handler never invoked its result callback); `raised`
means the handler raised. -/
inductive HandlerOutcome where
  | done (result : Option String)
  | raised (emsg : String)
deriving DecidableEq

/-- `f"Error: Tool '{fn_name}' not found."` — the synthesized result for an
unknown tool name. -/
def toolNotFound (name : String) : String :=
  "Error: Tool " ++ squote ++ name ++ squote ++ " not found."

/-- `mock_params.result or "No result returned"`: Python `or` replaces both
`None` and the empty string. -/
def resultOrDefault (r : Option String) : String :=
  match r with
  | none => "No result returned"
  | some s => if s = "" then "No result returned" else s

/-- The `for tool_call in tool_calls:` loop of `send_text_message`: decode
the arguments (`json.loads` may raise), look the name up in
`TOOL_HANDLERS`, run the handler (which may raise) or synthesize the
not-found error string, and append the tool-role entry to the context.
`Except.error` propagates a raised exception to the route's generic
handler. -/
def runToolCalls (handlers : String → List (String × PyVal) → HandlerOutcome)
    (ctx : List CtxEntry) : List ToolCall → Except String (List CtxEntry)
  | [] => Except.ok ctx
  | tc :: rest =>
    match tc.arguments with
    | Except.error e => Except.error e
    | Except.ok fn_args =>
      if tc.name ∈ TOOL_HANDLER_NAMES then
        match handlers tc.name fn_args with
        | HandlerOutcome.raised e => Except.error e
        | HandlerOutcome.done r =>
          runToolCalls handlers
            (ctx ++ [CtxEntry.toolResult tc.id tc.name (resultOrDefault r)])
            rest
      else
        runToolCalls handlers
          (ctx ++ [CtxEntry.toolResult tc.id tc.name (toolNotFound tc.name)])
          rest

/-- `get_system_prompt()` (pipeline/prompts.py) returns the literal
`VAANI_SYSTEM_PROMPT` text.  Its content is irrelevant to every claim —
only its position at the head of the context matters — so the multi-page
prompt text is stood in for by a marker string. -/
def get_system_prompt : String := "VAANI_SYSTEM_PROMPT"

/-- The history filter of `send_text_message` step 2: keep messages whose
role is `user` or `assistant` as role/content context entries. -/
def historyCtx : List Msg → List CtxEntry
  | [] => []
  | m :: rest =>
    if m.role = MessageRole.user ∨ m.role = MessageRole.assistant then
      CtxEntry.chat m.role m.content :: historyCtx rest
    else
      historyCtx rest

/-- The context assembled before the first language-model call: the system
prompt followed by the filtered history. -/
def initialContext (history : List Msg) : List CtxEntry :=
  CtxEntry.chat MessageRole.system get_system_prompt :: historyCtx history

/-- Result of the route as seen by the HTTP caller. -/
inductive HttpResult where
  | ok (m : Msg)
  | httpError (status : Nat) (detail : String)
deriving DecidableEq

/-- Observable result of one `send_text_message` request: the HTTP
response, the message collection afterwards, how many
`chat.completions.create` calls were made, and the final value of the
turn-scoped `messages` context list. -/
structure RunOut where
  response : HttpResult
  db : List Msg
  llmCalls : Nat
  ctx : List CtxEntry

/-- The route's `except Exception` handler:
`raise HTTPException(500, "Failed to process message")`. -/
def fail500 (db : List Msg) (llmCalls : Nat) (ctx : List CtxEntry) : RunOut :=
  { response := HttpResult.httpError 500 "Failed to process message"
    db := db
    llmCalls := llmCalls
    ctx := ctx }

/-- `(completion.choices[0].message.content or "").strip()`. -/
def pyStripOpt (c : Option String) : String := pyStripStr (c.getD "")

/-- `"I couldn't generate a response."` — the step-4 fallback for an empty
answer. -/
def fallbackText : String := "I couldn" ++ squote ++ "t generate a response."

/-- Steps 4–5 of `send_text_message`: substitute the fallback when
`ai_text` is empty, save the assistant `Message`, and return it. -/
def finishTurn (db1 : List Msg) (session_id : String) (ai_text0 : String)
    (tAi : Nat) (llmCalls : Nat) (ctx : List CtxEntry) : RunOut :=
  let ai_text := if ai_text0 = "" then fallbackText else ai_text0
  let m : Msg := { session_id := session_id, role := MessageRole.assistant,
                   content := ai_text, timestamp := tAi }
  { response := HttpResult.ok m
    db := save_message db1 session_id MessageRole.assistant ai_text tAi
    llmCalls := llmCalls
    ctx := ctx }

/-- `send_text_message(session_id, request)` (routes/chat.py), translated
branch for branch:
* reject empty/whitespace content (the inner `HTTPException(400)` is
  caught by the route's own `except Exception` and surfaces as the 500);
* save the user message, fetch the 20-message history, build the context;
* turn 1: the tool-decision call; on `BadRequestError` containing
  `tool_use_failed`, retry once without tools (`tool_was_used` stays
  false, so no finishing call follows); any other exception propagates;
* on tool calls: append the assistant tool-call message, run the tool
  loop, then make the turn-2 finishing call (tools disabled);
* substitute the fallback for an empty answer, save and return the
  assistant message.
`tUser`/`tAi` are the `utcnow` timestamps of the two saves. -/
def send_text_message (env : LLMEnv)
    (handlers : String → List (String × PyVal) → HandlerOutcome)
    (session_id : String) (content : String) (tUser tAi : Nat)
    (db : List Msg) : RunOut :=
  if pyStripStr content = "" then
    fail500 db 0 []
  else
    let db1 := save_message db session_id MessageRole.user (pyStripStr content) tUser
    let msgs0 := initialContext (get_messages db1 session_id 20)
    match env.decision with
    | LLMOutcome.badRequest emsg =>
      if pyInStr "tool_use_failed" emsg then
        match env.retryNoTools with
        | LLMOutcome.reply c _ =>
          finishTurn db1 session_id (pyStripOpt c) tAi 2 msgs0
        | LLMOutcome.badRequest _ => fail500 db1 2 msgs0
        | LLMOutcome.exn _ => fail500 db1 2 msgs0
      else
        fail500 db1 1 msgs0
    | LLMOutcome.exn _ => fail500 db1 1 msgs0
    | LLMOutcome.reply c tool_calls =>
      if tool_calls.isEmpty then
        finishTurn db1 session_id (pyStripOpt c) tAi 1 msgs0
      else
        let msgs1 := msgs0 ++ [CtxEntry.assistantToolCalls tool_calls]
        match runToolCalls handlers msgs1 tool_calls with
        | Except.error _ => fail500 db1 1 msgs1
        | Except.ok msgs2 =>
          match env.final with
          | LLMOutcome.reply c2 _ =>
            finishTurn db1 session_id (pyStripOpt c2) tAi 2 msgs2
          | LLMOutcome.badRequest _ => fail500 db1 2 msgs2
          | LLMOutcome.exn _ => fail500 db1 2 msgs2

/-- The spec §4.3/§6 contract for registered tool handlers: a handler never
raises — every execution resolves to a textual result (possibly `none`
when the callback was skipped). -/
def HandlersComplete
    (handlers : String → List (String × PyVal) → HandlerOutcome) : Prop :=
  ∀ name args, ∃ r, handlers name args = HandlerOutcome.done r

/-- Every tool call in the list carries well-formed JSON arguments
(`json.loads` succeeds). -/
def ArgsParse (tcs : List ToolCall) : Prop :=
  ∀ tc ∈ tcs, ∃ a, tc.arguments = Except.ok a

/-! ## Concrete fixtures used by witnesses and counterexamples -/

/-- A handler environment whose handlers always resolve with a textual
result (the spec's handler contract). -/
def handlersOk : String → List (String × PyVal) → HandlerOutcome :=
  fun _ _ => HandlerOutcome.done (some "tool output")

/-- A well-formed weather tool call. -/
def tcWeather : ToolCall :=
  { id := "call1", name := "get_weather",
    arguments := Except.ok [("city", PyVal.str "Mumbai")] }

/-- A tool call whose name is not registered in `TOOL_HANDLERS`. -/
def tcUnknown : ToolCall :=
  { id := "call2", name := "fetch_news", arguments := Except.ok [] }

/-- A collaborator that answers in plain text at once. -/
def envPlainText : LLMEnv :=
  { decision := LLMOutcome.reply (some " The answer is 4. ") []
    retryNoTools := LLMOutcome.reply none []
    final := LLMOutcome.reply none [] }

/-- A collaborator that requests a tool on every call and never produces
text. -/
def envAlwaysTool : LLMEnv :=
  { decision := LLMOutcome.reply none [tcWeather]
    retryNoTools := LLMOutcome.reply none [tcWeather]
    final := LLMOutcome.reply none [tcWeather] }

/-- A collaborator whose tool-decision call raises `BadRequestError` with
Groq's `tool_use_failed` condition and whose no-tools retry answers in
plain text. -/
def envToolUseFailed : LLMEnv :=
  { decision := LLMOutcome.badRequest
      "Error code: 400 - tool_use_failed: failed to parse tool call"
    retryNoTools := LLMOutcome.reply (some " Paris is the capital. ") []
    final := LLMOutcome.reply none [] }

/-- A collaborator that requests an unknown tool and then answers. -/
def envUnknownTool : LLMEnv :=
  { decision := LLMOutcome.reply none [tcUnknown]
    retryNoTools := LLMOutcome.reply none []
    final := LLMOutcome.reply (some " Here is the news. ") [] }

/-- A store holding 21 messages of one session, chronologically ordered. -/
def dbBig : List Msg :=
  (List.range 21).map
    (fun i => { session_id := "s", role := MessageRole.user, content := "m",
                timestamp := i })

/-! ## Helper lemmas -/

theorem remove_session_not_active (session_id : String) (reg : Registry) :
    is_session_active session_id (remove_session session_id reg) = false := by
  unfold remove_session is_session_active
  by_cases h : reg.any (fun p => decide (p.1 = session_id)) = true
  · rw [if_pos h]
    simp [List.any_eq_true, List.mem_filter]
  · rw [if_neg h]
    exact Bool.eq_false_iff.mpr h

theorem finishTurn_response (db1 : List Msg) (session_id a : String)
    (tAi n : Nat) (ctx : List CtxEntry) :
    (finishTurn db1 session_id a tAi n ctx).response =
      HttpResult.ok
        { session_id := session_id, role := MessageRole.assistant,
          content := if a = "" then fallbackText else a, timestamp := tAi } :=
  rfl

theorem finishTurn_db (db1 : List Msg) (session_id a : String)
    (tAi n : Nat) (ctx : List CtxEntry) :
    (finishTurn db1 session_id a tAi n ctx).db =
      db1 ++ [{ session_id := session_id, role := MessageRole.assistant,
                content := if a = "" then fallbackText else a,
                timestamp := tAi }] :=
  rfl

/-! ## Claim theorems -/

/-- C1: for every session admitted to the registry whose pipeline task runs
via the `/offer` route, the `try`/`finally` discipline of `run_and_cleanup`
removes the session id from the in-memory registry on every exit path of
the task — normal completion, disconnect-triggered cancellation, or a
pipeline exception — so the registry no longer contains the id
afterwards. -/
theorem offer_task_always_evicts_registry (session_id : String)
    (task : PipelineTask) (outcome : PipelineOutcome) (reg : Registry) :
    is_session_active session_id
      (run_and_cleanup session_id outcome (add_session session_id task reg))
      = false := by
  unfold run_and_cleanup run_pipeline_registry_effect
  exact remove_session_not_active session_id _

/-- C4 (counter-evidence, code evaluated at the failing input): admitting a
session id that is already present does not fail and does not leave the
existing entry unchanged — `add_session` silently overwrites the entry, so
both admissions succeed. -/
theorem add_session_duplicate_overwrites :
    add_session "s1" 2 [("s1", 1)] = [("s1", 2)] ∧
    is_session_active "s1" (add_session "s1" 2 [("s1", 1)]) = true := by
  constructor <;> decide

/-- C7: every Session record the system creates or updates satisfies the
invariant — `ended_at` and `duration_seconds` both absent or both present,
`status = Active` iff both absent, and when both are present
`duration_seconds = ended_at - started_at`.  Creation (`create_session`)
establishes it, and every terminal transition (`end_session` with `ENDED`
or `ERROR`, the only statuses its call sites in pipeline/runner.py pass)
re-establishes it. -/
theorem session_invariant_at_creation_and_termination (id : String)
    (now : Nat) (s : Session) (status : SessionStatus) (now2 : Nat)
    (hterm : status = SessionStatus.ended ∨ status = SessionStatus.error) :
    sessionInvariant (create_session id now) ∧
    sessionInvariant (end_session s status now2) := by
  constructor
  · refine ⟨by simp [create_session], by simp [create_session], ?_⟩
    intro e d he _
    simp [create_session] at he
  · refine ⟨by simp [end_session], ?_, ?_⟩
    · constructor
      · intro hst
        rcases hterm with h | h <;> rw [h] at hst <;> simp [end_session] at hst
      · intro habs
        simp [end_session] at habs
    · intro e d he hd
      simp only [end_session] at he hd
      cases he
      cases hd
      rfl

/-- C7 witness: the invariant at a concrete creation and a concrete
terminal transition. -/
theorem session_invariant_at_creation_and_termination_witness :
    sessionInvariant (create_session "s" 5) ∧
    sessionInvariant (end_session (create_session "s" 5)
      SessionStatus.ended 9) :=
  session_invariant_at_creation_and_termination "s" 5 (create_session "s" 5)
    SessionStatus.ended 9 (Or.inl rfl)

/-- C9: a send-text request whose content is empty or whitespace-only is
rejected with an error response (the inner 400 is re-raised by the route's
generic handler as a 500) and persists nothing — the stored message
history is returned unchanged. -/
theorem empty_content_rejected_persists_nothing (env : LLMEnv)
    (handlers : String → List (String × PyVal) → HandlerOutcome)
    (session_id content : String) (tUser tAi : Nat) (db : List Msg)
    (h : pyStripStr content = "") :
    (send_text_message env handlers session_id content tUser tAi db).response
      = HttpResult.httpError 500 "Failed to process message" ∧
    (send_text_message env handlers session_id content tUser tAi db).db
      = db := by
  unfold send_text_message
  rw [if_pos h]
  exact ⟨rfl, rfl⟩

/-- C9 witness: a whitespace-only request at a concrete non-empty store. -/
theorem empty_content_rejected_persists_nothing_witness :
    (send_text_message
        { decision := LLMOutcome.reply (some "hi") [],
          retryNoTools := LLMOutcome.reply (some "hi") [],
          final := LLMOutcome.reply (some "hi") [] }
        (fun _ _ => HandlerOutcome.done (some "ok"))
        "s" "   " 1 2
        [{ session_id := "s", role := MessageRole.user, content := "old",
           timestamp := 0 }]).response
      = HttpResult.httpError 500 "Failed to process message" ∧
    (send_text_message
        { decision := LLMOutcome.reply (some "hi") [],
          retryNoTools := LLMOutcome.reply (some "hi") [],
          final := LLMOutcome.reply (some "hi") [] }
        (fun _ _ => HandlerOutcome.done (some "ok"))
        "s" "   " 1 2
        [{ session_id := "s", role := MessageRole.user, content := "old",
           timestamp := 0 }]).db
      = [{ session_id := "s", role := MessageRole.user, content := "old",
           timestamp := 0 }] :=
  empty_content_rejected_persists_nothing _ _ "s" "   " 1 2 _ (by decide)

theorem send_eq_retry (env : LLMEnv)
    (handlers : String → List (String × PyVal) → HandlerOutcome)
    (session_id content : String) (tUser tAi : Nat) (db : List Msg)
    (emsg : String) (c : Option String) (tcs : List ToolCall)
    (hc : ¬ pyStripStr content = "")
    (hd : env.decision = LLMOutcome.badRequest emsg)
    (ht : pyInStr "tool_use_failed" emsg = true)
    (hr : env.retryNoTools = LLMOutcome.reply c tcs) :
    send_text_message env handlers session_id content tUser tAi db =
      finishTurn
        (save_message db session_id MessageRole.user (pyStripStr content)
          tUser)
        session_id (pyStripOpt c) tAi 2
        (initialContext
          (get_messages
            (save_message db session_id MessageRole.user (pyStripStr content)
              tUser)
            session_id 20)) := by
  obtain ⟨d, r, f⟩ := env
  cases hd
  cases hr
  simp [send_text_message, hc, ht]

theorem send_eq_noTool (env : LLMEnv)
    (handlers : String → List (String × PyVal) → HandlerOutcome)
    (session_id content : String) (tUser tAi : Nat) (db : List Msg)
    (c : Option String) (tcs : List ToolCall)
    (hc : ¬ pyStripStr content = "")
    (hd : env.decision = LLMOutcome.reply c tcs)
    (he : tcs.isEmpty = true) :
    send_text_message env handlers session_id content tUser tAi db =
      finishTurn
        (save_message db session_id MessageRole.user (pyStripStr content)
          tUser)
        session_id (pyStripOpt c) tAi 1
        (initialContext
          (get_messages
            (save_message db session_id MessageRole.user (pyStripStr content)
              tUser)
            session_id 20)) := by
  obtain ⟨d, r, f⟩ := env
  cases hd
  simp [send_text_message, hc, he]

theorem send_eq_tools (env : LLMEnv)
    (handlers : String → List (String × PyVal) → HandlerOutcome)
    (session_id content : String) (tUser tAi : Nat) (db : List Msg)
    (c : Option String) (tcs : List ToolCall) (msgs2 : List CtxEntry)
    (c2 : Option String) (tcs2 : List ToolCall)
    (hc : ¬ pyStripStr content = "")
    (hd : env.decision = LLMOutcome.reply c tcs)
    (he : tcs.isEmpty = false)
    (hrun : runToolCalls handlers
        (initialContext
          (get_messages
            (save_message db session_id MessageRole.user (pyStripStr content)
              tUser)
            session_id 20) ++
          [CtxEntry.assistantToolCalls tcs])
        tcs = Except.ok msgs2)
    (hf : env.final = LLMOutcome.reply c2 tcs2) :
    send_text_message env handlers session_id content tUser tAi db =
      finishTurn
        (save_message db session_id MessageRole.user (pyStripStr content)
          tUser)
        session_id (pyStripOpt c2) tAi 2 msgs2 := by
  obtain ⟨d, r, f⟩ := env
  cases hd
  cases hf
  simp [send_text_message, hc, he, hrun]

theorem send_cases (env : LLMEnv)
    (handlers : String → List (String × PyVal) → HandlerOutcome)
    (session_id content : String) (tUser tAi : Nat) (db : List Msg) :
    (∃ dbv n ctx,
      send_text_message env handlers session_id content tUser tAi db =
        fail500 dbv n ctx) ∨
    (∃ a n ctx,
      send_text_message env handlers session_id content tUser tAi db =
        finishTurn
          (save_message db session_id MessageRole.user (pyStripStr content)
            tUser)
          session_id a tAi n ctx) := by
  obtain ⟨d, r, f⟩ := env
  by_cases hc : pyStripStr content = ""
  · exact Or.inl ⟨db, 0, [], by simp [send_text_message, hc]⟩
  · cases d with
    | badRequest emsg =>
      by_cases ht : pyInStr "tool_use_failed" emsg = true
      · cases r with
        | reply c tcs =>
          exact Or.inr ⟨pyStripOpt c, 2, _,
            send_eq_retry _ handlers session_id content tUser tAi db emsg c
              tcs hc rfl ht rfl⟩
        | badRequest e2 =>
          exact Or.inl ⟨save_message db session_id MessageRole.user (pyStripStr content)
            tUser, 2,
            initialContext
            (get_messages
              (save_message db session_id MessageRole.user (pyStripStr content)
                tUser)
              session_id 20), by simp [send_text_message, hc, ht]⟩
        | exn e2 =>
          exact Or.inl ⟨save_message db session_id MessageRole.user (pyStripStr content)
            tUser, 2,
            initialContext
            (get_messages
              (save_message db session_id MessageRole.user (pyStripStr content)
                tUser)
              session_id 20), by simp [send_text_message, hc, ht]⟩
      · exact Or.inl ⟨save_message db session_id MessageRole.user (pyStripStr content)
            tUser, 1,
          initialContext
            (get_messages
              (save_message db session_id MessageRole.user (pyStripStr content)
                tUser)
              session_id 20), by simp [send_text_message, hc, ht]⟩
    | exn e =>
      exact Or.inl ⟨save_message db session_id MessageRole.user (pyStripStr content)
            tUser, 1,
        initialContext
            (get_messages
              (save_message db session_id MessageRole.user (pyStripStr content)
                tUser)
              session_id 20), by simp [send_text_message, hc]⟩
    | reply c tcs =>
      by_cases he : tcs.isEmpty = true
      · exact Or.inr ⟨pyStripOpt c, 1, _,
          send_eq_noTool _ handlers session_id content tUser tAi db c tcs hc
            rfl he⟩
      · rw [Bool.not_eq_true] at he
        cases hrun : runToolCalls handlers
            (initialContext
              (get_messages
                (save_message db session_id MessageRole.user
                  (pyStripStr content) tUser)
                session_id 20) ++
              [CtxEntry.assistantToolCalls tcs])
            tcs with
        | error e =>
          exact Or.inl ⟨save_message db session_id MessageRole.user (pyStripStr content)
            tUser, 1,
            initialContext
            (get_messages
              (save_message db session_id MessageRole.user (pyStripStr content)
                tUser)
              session_id 20) ++
              [CtxEntry.assistantToolCalls tcs],
            by simp [send_text_message, hc, he, hrun]⟩
        | ok msgs2 =>
          cases f with
          | reply c2 tcs2 =>
            exact Or.inr ⟨pyStripOpt c2, 2, msgs2,
              send_eq_tools _ handlers session_id content tUser tAi db c tcs
                msgs2 c2 tcs2 hc rfl he hrun rfl⟩
          | badRequest e2 =>
            exact Or.inl ⟨save_message db session_id MessageRole.user (pyStripStr content)
            tUser, 2, msgs2,
              by simp [send_text_message, hc, he, hrun]⟩
          | exn e2 =>
            exact Or.inl ⟨save_message db session_id MessageRole.user (pyStripStr content)
            tUser, 2, msgs2,
              by simp [send_text_message, hc, he, hrun]⟩

/-- C2: every invocation of `send_text_message` that completes successfully
persists exactly one user `Message` (the stripped request content, saved
before any language-model call) and exactly one assistant `Message` (the
returned final answer), in that order, and nothing else — in particular no
tool-invocation or tool-result entry — regardless of what the
language-model collaborator and the tool handlers did mid-turn. -/
theorem completed_turn_persists_user_then_assistant (env : LLMEnv)
    (handlers : String → List (String × PyVal) → HandlerOutcome)
    (session_id content : String) (tUser tAi : Nat) (db : List Msg) (m : Msg)
    (hok : (send_text_message env handlers session_id content tUser tAi
        db).response = HttpResult.ok m) :
    (send_text_message env handlers session_id content tUser tAi db).db =
      db ++ [{ session_id := session_id, role := MessageRole.user,
               content := pyStripStr content, timestamp := tUser }, m] ∧
    m.role = MessageRole.assistant ∧ m.session_id = session_id := by
  rcases send_cases env handlers session_id content tUser tAi db with
    ⟨dbv, n, ctx, hfail⟩ | ⟨a, n, ctx, hfin⟩
  · rw [hfail] at hok
    exact absurd hok (by simp [fail500])
  · rw [hfin] at hok ⊢
    rw [finishTurn_response] at hok
    injection hok with hm
    subst hm
    refine ⟨?_, rfl, rfl⟩
    rw [finishTurn_db]
    simp [save_message]

/-- C2 witness: a concrete completed turn persists the user message then
the assistant answer. -/
theorem completed_turn_persists_user_then_assistant_witness :
    (send_text_message envPlainText handlersOk "s" " What is 2+2? " 1 2
        []).db =
      [] ++ [{ session_id := "s", role := MessageRole.user,
               content := pyStripStr " What is 2+2? ", timestamp := 1 },
             { session_id := "s", role := MessageRole.assistant,
               content := "The answer is 4.", timestamp := 2 }] ∧
    MessageRole.assistant = MessageRole.assistant ∧ "s" = "s" := by
  have h := completed_turn_persists_user_then_assistant envPlainText
    handlersOk "s" " What is 2+2? " 1 2 []
    { session_id := "s", role := MessageRole.assistant,
      content := "The answer is 4.", timestamp := 2 } (by decide)
  exact ⟨h.1, rfl, rfl⟩

/-- C5: when the tool-decision call raises `BadRequestError` whose message
carries the `tool_use_failed` (malformed tool call) condition, the route
retries the same turn exactly once with tools disabled on the switched
model (one decision call plus one retry call, two language-model calls in
total), returns that retry call's stripped plain-text answer as the
persisted assistant message, and surfaces no request failure to the end
user. -/
theorem malformed_tool_call_retried_once_without_tools (env : LLMEnv)
    (handlers : String → List (String × PyVal) → HandlerOutcome)
    (session_id content : String) (tUser tAi : Nat) (db : List Msg)
    (emsg : String) (c : Option String) (tcs : List ToolCall)
    (hc : ¬ pyStripStr content = "")
    (hd : env.decision = LLMOutcome.badRequest emsg)
    (ht : pyInStr "tool_use_failed" emsg = true)
    (hr : env.retryNoTools = LLMOutcome.reply c tcs)
    (hne : ¬ pyStripOpt c = "") :
    (send_text_message env handlers session_id content tUser tAi
        db).response =
      HttpResult.ok { session_id := session_id,
                      role := MessageRole.assistant,
                      content := pyStripOpt c, timestamp := tAi } ∧
    (send_text_message env handlers session_id content tUser tAi
        db).llmCalls = 2 ∧
    (send_text_message env handlers session_id content tUser tAi db).db =
      db ++ [{ session_id := session_id, role := MessageRole.user,
               content := pyStripStr content, timestamp := tUser },
             { session_id := session_id, role := MessageRole.assistant,
               content := pyStripOpt c, timestamp := tAi }] := by
  rw [send_eq_retry env handlers session_id content tUser tAi db emsg c tcs
    hc hd ht hr]
  refine ⟨?_, rfl, ?_⟩
  · rw [finishTurn_response, if_neg hne]
  · rw [finishTurn_db, if_neg hne]
    simp [save_message]

/-- C5 witness: a concrete `tool_use_failed` decision call followed by a
successful no-tools retry. -/
theorem malformed_tool_call_retried_once_without_tools_witness :
    (send_text_message envToolUseFailed handlersOk "s" "capital?" 1 2
        []).response =
      HttpResult.ok { session_id := "s", role := MessageRole.assistant,
                      content := pyStripOpt (some " Paris is the capital. "),
                      timestamp := 2 } ∧
    (send_text_message envToolUseFailed handlersOk "s" "capital?" 1 2
        []).llmCalls = 2 ∧
    (send_text_message envToolUseFailed handlersOk "s" "capital?" 1 2
        []).db =
      [] ++ [{ session_id := "s", role := MessageRole.user,
               content := pyStripStr "capital?", timestamp := 1 },
             { session_id := "s", role := MessageRole.assistant,
               content := pyStripOpt (some " Paris is the capital. "),
               timestamp := 2 }] :=
  malformed_tool_call_retried_once_without_tools envToolUseFailed handlersOk
    "s" "capital?" 1 2 []
    "Error code: 400 - tool_use_failed: failed to parse tool call"
    (some " Paris is the capital. ") [] (by decide) rfl (by decide) rfl
    (by decide)

theorem runToolCalls_prefix
    (handlers : String → List (String × PyVal) → HandlerOutcome) :
    ∀ (tcs : List ToolCall) (ctx ctx2 : List CtxEntry),
      runToolCalls handlers ctx tcs = Except.ok ctx2 →
      ∃ r, ctx2 = ctx ++ r := by
  intro tcs
  induction tcs with
  | nil =>
    intro ctx ctx2 h
    rw [runToolCalls] at h
    injection h with h
    exact ⟨[], by rw [h, List.append_nil]⟩
  | cons tc rest ih =>
    intro ctx ctx2 h
    rw [runToolCalls] at h
    cases harg : tc.arguments with
    | error e =>
      simp only [harg] at h
      exact absurd h (by simp)
    | ok fn_args =>
      simp only [harg] at h
      by_cases hn : tc.name ∈ TOOL_HANDLER_NAMES
      · rw [if_pos hn] at h
        cases hh : handlers tc.name fn_args with
        | raised e =>
          simp only [hh] at h
          exact absurd h (by simp)
        | done r =>
          simp only [hh] at h
          obtain ⟨r2, hr2⟩ := ih _ _ h
          exact ⟨_, by rw [hr2, List.append_assoc]⟩
      · rw [if_neg hn] at h
        obtain ⟨r2, hr2⟩ := ih _ _ h
        exact ⟨_, by rw [hr2, List.append_assoc]⟩

theorem runToolCalls_complete
    (handlers : String → List (String × PyVal) → HandlerOutcome)
    (hh : HandlersComplete handlers) :
    ∀ (tcs : List ToolCall), ArgsParse tcs → ∀ (ctx : List CtxEntry),
      ∃ ctx2, runToolCalls handlers ctx tcs = Except.ok ctx2 := by
  intro tcs
  induction tcs with
  | nil => intro _ ctx; exact ⟨ctx, rfl⟩
  | cons tc rest ih =>
    intro hp ctx
    obtain ⟨a, ha⟩ := hp tc (List.mem_cons_self tc rest)
    have hprest : ArgsParse rest := fun t htm => hp t (List.mem_cons_of_mem tc htm)
    rw [runToolCalls]
    simp only [ha]
    by_cases hn : tc.name ∈ TOOL_HANDLER_NAMES
    · rw [if_pos hn]
      obtain ⟨r, hr⟩ := hh tc.name a
      simp only [hr]
      exact ih hprest _
    · rw [if_neg hn]
      exact ih hprest _

theorem runToolCalls_unknown_mem
    (handlers : String → List (String × PyVal) → HandlerOutcome) :
    ∀ (tcs : List ToolCall) (ctx ctx2 : List CtxEntry) (tc : ToolCall),
      runToolCalls handlers ctx tcs = Except.ok ctx2 →
      tc ∈ tcs → ¬ tc.name ∈ TOOL_HANDLER_NAMES →
      CtxEntry.toolResult tc.id tc.name (toolNotFound tc.name) ∈ ctx2 := by
  intro tcs
  induction tcs with
  | nil =>
    intro ctx ctx2 tc _ hmem
    exact absurd hmem (List.not_mem_nil tc)
  | cons hd rest ih =>
    intro ctx ctx2 tc h hmem hun
    rw [runToolCalls] at h
    rcases List.mem_cons.mp hmem with rfl | htail
    · cases harg : tc.arguments with
      | error e =>
      simp only [harg] at h
      exact absurd h (by simp)
      | ok fn_args =>
        simp only [harg] at h
        rw [if_neg hun] at h
        obtain ⟨r, hr⟩ := runToolCalls_prefix handlers rest _ _ h
        rw [hr]
        refine List.mem_append_left _ ?_
        exact List.mem_append_right _ (List.mem_singleton.mpr rfl)
    · cases harg : hd.arguments with
      | error e =>
      simp only [harg] at h
      exact absurd h (by simp)
      | ok fn_args =>
        simp only [harg] at h
        by_cases hn : hd.name ∈ TOOL_HANDLER_NAMES
        · rw [if_pos hn] at h
          cases hhd : handlers hd.name fn_args with
          | raised e =>
            simp only [hhd] at h
            exact absurd h (by simp)
          | done r => simp only [hhd] at h; exact ih _ _ tc h htail hun
        · rw [if_neg hn] at h
          exact ih _ _ tc h htail hun

/-- C3 (counterexample): at a concrete input where the language-model
collaborator requests a tool on every call and never produces text, the
text-chat loop terminates and returns the fallback
"I couldn't generate a response." — not the claimed fixed fallback
"I'm having trouble retrieving that information right now…", which appears
nowhere in the code. -/
theorem tool_loop_fallback_counterexample :
    (send_text_message envAlwaysTool handlersOk "s" "weather please" 1 2
        []).response =
      HttpResult.ok { session_id := "s", role := MessageRole.assistant,
                      content := fallbackText, timestamp := 2 } ∧
    ¬ fallbackText =
      "I" ++ squote ++
        "m having trouble retrieving that information right now…" := by
  constructor <;> decide

/-- C3 (amended): the text-chat tool loop is bounded — given a
language-model collaborator that requests a tool on its decision call
(and whatever it does on the tools-disabled finishing call, whose tool
requests are ignored), conforming tool handlers, and no final text, the
loop terminates after exactly two language-model calls (within the claimed
3-turn bound) and produces the fixed fallback answer
"I couldn't generate a response." instead of propagating an error to the
caller. -/
theorem tool_loop_bounded_two_calls_with_fallback (env : LLMEnv)
    (handlers : String → List (String × PyVal) → HandlerOutcome)
    (session_id content : String) (tUser tAi : Nat) (db : List Msg)
    (c : Option String) (tcs : List ToolCall) (c2 : Option String)
    (tcs2 : List ToolCall)
    (hc : ¬ pyStripStr content = "")
    (hd : env.decision = LLMOutcome.reply c tcs)
    (hne : tcs.isEmpty = false)
    (hf : env.final = LLMOutcome.reply c2 tcs2)
    (hc2 : pyStripOpt c2 = "")
    (hh : HandlersComplete handlers)
    (hp : ArgsParse tcs) :
    ∃ m, (send_text_message env handlers session_id content tUser tAi
        db).response = HttpResult.ok m ∧
      m.content = fallbackText ∧
      (send_text_message env handlers session_id content tUser tAi
        db).llmCalls = 2 ∧
      (send_text_message env handlers session_id content tUser tAi
        db).llmCalls ≤ 3 := by
  obtain ⟨ctx2, hrun⟩ := runToolCalls_complete handlers hh tcs hp
    (initialContext
      (get_messages
        (save_message db session_id MessageRole.user (pyStripStr content)
          tUser)
        session_id 20) ++
      [CtxEntry.assistantToolCalls tcs])
  rw [send_eq_tools env handlers session_id content tUser tAi db c tcs ctx2
    c2 tcs2 hc hd hne hrun hf]
  refine ⟨{ session_id := session_id, role := MessageRole.assistant,
            content := fallbackText, timestamp := tAi },
    ?_, rfl, rfl, by simp [finishTurn]⟩
  rw [finishTurn_response, if_pos hc2]

/-- C3 (amended) witness: the concrete always-requests-a-tool collaborator
at a concrete request. -/
theorem tool_loop_bounded_two_calls_with_fallback_witness :
    ∃ m, (send_text_message envAlwaysTool handlersOk "s" "weather please"
        1 2 []).response = HttpResult.ok m ∧
      m.content = fallbackText ∧
      (send_text_message envAlwaysTool handlersOk "s" "weather please"
        1 2 []).llmCalls = 2 ∧
      (send_text_message envAlwaysTool handlersOk "s" "weather please"
        1 2 []).llmCalls ≤ 3 :=
  tool_loop_bounded_two_calls_with_fallback envAlwaysTool handlersOk "s"
    "weather please" 1 2 [] none [tcWeather] none [tcWeather] (by decide)
    rfl rfl rfl rfl (fun name args => ⟨some "tool output", rfl⟩)
    (fun tc htc => by
      rcases List.mem_singleton.mp htc with rfl
      exact ⟨[("city", PyVal.str "Mumbai")], rfl⟩)

/-- C6: when the language model requests a tool whose name is not in
`TOOL_HANDLERS`, the loop synthesizes the error string
"Error: Tool '<name>' not found." as that invocation's tool-role context
entry instead of failing the turn, and still produces and persists a final
assistant answer. -/
theorem unknown_tool_synthesizes_not_found (env : LLMEnv)
    (handlers : String → List (String × PyVal) → HandlerOutcome)
    (session_id content : String) (tUser tAi : Nat) (db : List Msg)
    (c : Option String) (tcs : List ToolCall) (tc : ToolCall)
    (c2 : Option String) (tcs2 : List ToolCall)
    (hc : ¬ pyStripStr content = "")
    (hd : env.decision = LLMOutcome.reply c tcs)
    (htc : tc ∈ tcs)
    (hun : ¬ tc.name ∈ TOOL_HANDLER_NAMES)
    (hh : HandlersComplete handlers)
    (hp : ArgsParse tcs)
    (hf : env.final = LLMOutcome.reply c2 tcs2) :
    CtxEntry.toolResult tc.id tc.name (toolNotFound tc.name) ∈
      (send_text_message env handlers session_id content tUser tAi
        db).ctx ∧
    ∃ m, (send_text_message env handlers session_id content tUser tAi
        db).response = HttpResult.ok m ∧
      m.role = MessageRole.assistant ∧
      (send_text_message env handlers session_id content tUser tAi
        db).db =
        db ++ [{ session_id := session_id, role := MessageRole.user,
                 content := pyStripStr content, timestamp := tUser }, m] := by
  have hne : tcs.isEmpty = false := by
    cases tcs with
    | nil => exact absurd htc (List.not_mem_nil tc)
    | cons a l => rfl
  obtain ⟨ctx2, hrun⟩ := runToolCalls_complete handlers hh tcs hp
    (initialContext
      (get_messages
        (save_message db session_id MessageRole.user (pyStripStr content)
          tUser)
        session_id 20) ++
      [CtxEntry.assistantToolCalls tcs])
  rw [send_eq_tools env handlers session_id content tUser tAi db c tcs ctx2
    c2 tcs2 hc hd hne hrun hf]
  refine ⟨runToolCalls_unknown_mem handlers tcs _ ctx2 tc hrun htc hun,
    { session_id := session_id, role := MessageRole.assistant,
      content := if pyStripOpt c2 = "" then fallbackText else pyStripOpt c2,
      timestamp := tAi },
    ?_, rfl, ?_⟩
  · rw [finishTurn_response]
  · rw [finishTurn_db]
    simp [save_message]

/-- C6 witness: a concrete request where the model asks for the
unregistered tool `fetch_news`. -/
theorem unknown_tool_synthesizes_not_found_witness :
    CtxEntry.toolResult tcUnknown.id tcUnknown.name
        (toolNotFound tcUnknown.name) ∈
      (send_text_message envUnknownTool handlersOk "s" "news?" 1 2
        []).ctx ∧
    ∃ m, (send_text_message envUnknownTool handlersOk "s" "news?" 1 2
        []).response = HttpResult.ok m ∧
      m.role = MessageRole.assistant ∧
      (send_text_message envUnknownTool handlersOk "s" "news?" 1 2
        []).db =
        [] ++ [{ session_id := "s", role := MessageRole.user,
                 content := pyStripStr "news?", timestamp := 1 }, m] :=
  unknown_tool_synthesizes_not_found envUnknownTool handlersOk "s" "news?"
    1 2 [] none [tcUnknown] tcUnknown (some " Here is the news. ")
    [] (by decide) rfl (List.mem_singleton.mpr rfl) (by decide)
    (fun name args => ⟨some "tool output", rfl⟩)
    (fun tc htc => by
      rcases List.mem_singleton.mp htc with rfl
      exact ⟨[], rfl⟩)
    rfl

theorem dictGet_str_of_param (args : List (String × PyVal))
    (key s0 : String) (h : StrParam args key) :
    ∃ s, dictGet args key (PyVal.str s0) = PyVal.str s := by
  unfold dictGet
  cases hfind : args.find? (fun p => decide (p.1 = key)) with
  | none => exact ⟨s0, rfl⟩
  | some p =>
    have hkey : p.1 = key := by
      have hfound := List.find?_some hfind
      simpa using hfound
    have hstr := h p (List.mem_of_find?_eq_some hfind) hkey
    show ∃ s, p.2 = PyVal.str s
    cases hv : p.2 with
    | str s => exact ⟨s, rfl⟩
    | num n => rw [hv] at hstr; exact absurd hstr (by simp [PyVal.isStr])
    | null => rw [hv] at hstr; exact absurd hstr (by simp [PyVal.isStr])
    | arr u => rw [hv] at hstr; exact absurd hstr (by simp [PyVal.isStr])

theorem dictGet_num_of_param (args : List (String × PyVal))
    (key : String) (n0 : Int) (h : IntParam args key) :
    ∃ n, dictGet args key (PyVal.num n0) = PyVal.num n := by
  unfold dictGet
  cases hfind : args.find? (fun p => decide (p.1 = key)) with
  | none => exact ⟨n0, rfl⟩
  | some p =>
    have hkey : p.1 = key := by
      have hfound := List.find?_some hfind
      simpa using hfound
    have hnum := h p (List.mem_of_find?_eq_some hfind) hkey
    show ∃ n, p.2 = PyVal.num n
    cases hv : p.2 with
    | num n => exact ⟨n, rfl⟩
    | str s => rw [hv] at hnum; exact absurd hnum (by simp [PyVal.isNum])
    | null => rw [hv] at hnum; exact absurd hnum (by simp [PyVal.isNum])
    | arr u => rw [hv] at hnum; exact absurd hnum (by simp [PyVal.isNum])

theorem dictGet_arr_of_param (args : List (String × PyVal))
    (key : String) (u0 : List String) (h : ArrParam args key) :
    ∃ u, dictGet args key (PyVal.arr u0) = PyVal.arr u := by
  unfold dictGet
  cases hfind : args.find? (fun p => decide (p.1 = key)) with
  | none => exact ⟨u0, rfl⟩
  | some p =>
    have hkey : p.1 = key := by
      have hfound := List.find?_some hfind
      simpa using hfound
    have harr := h p (List.mem_of_find?_eq_some hfind) hkey
    show ∃ u, p.2 = PyVal.arr u
    cases hv : p.2 with
    | arr u => exact ⟨u, rfl⟩
    | str s => rw [hv] at harr; exact absurd harr (by simp [PyVal.isArr])
    | num n => rw [hv] at harr; exact absurd harr (by simp [PyVal.isArr])
    | null => rw [hv] at harr; exact absurd harr (by simp [PyVal.isArr])

/-- C8 (counterexample): `calculate_handler` raises to its caller on a
concrete arguments mapping — `{"expression": 5}` (a JSON number the model
can legally produce), because `args.get("expression", "").strip()` runs
before the handler's `try`-block and `.strip()` on an `int` raises
`AttributeError`. -/
theorem calculate_handler_raises_counterexample :
    calculate_handler (fun _ => CalcOutcome.value "0")
        [("expression", PyVal.num 5)] =
      Except.error PyExc.attributeError ∧
    (calculate_handler (fun _ => CalcOutcome.value "0")
        [("expression", PyVal.num 5)]).isOk = false := by
  constructor <;> rfl

/-- C8 (amended): for every input arguments mapping whose values conform
to the types the handler's schema declares for them (string parameters
hold strings, the integer parameters `max_results`/`max_depth`/`limit`
hold integers, the `urls` array parameter holds an array; absent optional
parameters fall back to their well-typed defaults), each of the six
registered tool handlers never raises to its caller: whatever its inner
evaluation, network or clock oracle does — any raised exception class
included — it resolves via its result callback to a textual result or a
textual error description, in every execution path. -/
theorem registered_tool_handlers_never_raise_on_schema_args :
    (∀ (ev : String → CalcOutcome) (args : List (String × PyVal)),
      StrParam args "expression" →
      (calculate_handler ev args).isOk = true) ∧
    (∀ (net : String → String → WeatherOutcome)
        (args : List (String × PyVal)),
      StrParam args "city" →
      (get_weather_handler net args).isOk = true) ∧
    (∀ (net : PyVal → PyVal → Int → NetOutcome)
        (args : List (String × PyVal)),
      IntParam args "max_results" →
      (search_web_handler net args).isOk = true) ∧
    (∀ (net : PyVal → Int → Int → NetOutcome)
        (args : List (String × PyVal)),
      IntParam args "max_depth" → IntParam args "limit" →
      (crawl_webpage_handler net args).isOk = true) ∧
    (∀ (net : PyVal → NetOutcome) (args : List (String × PyVal)),
      ArrParam args "urls" →
      (extract_webpage_handler net args).isOk = true) ∧
    (∀ (clock : String → TimeOutcome) (args : List (String × PyVal)),
      StrParam args "timezone" →
      (get_current_time_handler clock args).isOk = true) := by
  refine ⟨?_, ?_, ?_, ?_, ?_, ?_⟩
  · intro ev args hargs
    obtain ⟨s, hs⟩ := dictGet_str_of_param args "expression" "" hargs
    unfold calculate_handler
    rw [hs]
    rfl
  · intro net args hargs
    obtain ⟨s, hs⟩ := dictGet_str_of_param args "city" "" hargs
    unfold get_weather_handler
    rw [hs]
    rfl
  · intro net args hargs
    obtain ⟨n, hn⟩ := dictGet_num_of_param args "max_results" 3 hargs
    unfold search_web_handler
    rw [hn]
    rfl
  · intro net args hdepth hlimit
    obtain ⟨d, hd⟩ := dictGet_num_of_param args "max_depth" 1 hdepth
    obtain ⟨l, hl⟩ := dictGet_num_of_param args "limit" 5 hlimit
    unfold crawl_webpage_handler
    rw [hd, hl]
    rfl
  · intro net args hargs
    obtain ⟨u, hu⟩ := dictGet_arr_of_param args "urls" [] hargs
    unfold extract_webpage_handler
    rw [hu]
    rfl
  · intro clock args hargs
    obtain ⟨s, hs⟩ := dictGet_str_of_param args "timezone" "UTC" hargs
    unfold get_current_time_handler
    rw [hs]
    rfl

/-- C8 (amended) witness: all six registered handlers resolve on concrete
schema-typed argument mappings even when their inner evaluation, network
call or timezone resolution faults. -/
theorem registered_tool_handlers_never_raise_on_schema_args_witness :
    (calculate_handler (fun _ => CalcOutcome.zeroDivisionError)
        [("expression", PyVal.str "1/0")]).isOk = true ∧
    (get_weather_handler (fun _ _ => WeatherOutcome.timeout)
        [("city", PyVal.str "Paris")]).isOk = true ∧
    (search_web_handler (fun _ _ _ => NetOutcome.exc "boom")
        [("max_results", PyVal.num 2)]).isOk = true ∧
    (crawl_webpage_handler (fun _ _ _ => NetOutcome.exc "boom")
        [("max_depth", PyVal.num 2), ("limit", PyVal.num 3)]).isOk
      = true ∧
    (extract_webpage_handler (fun _ => NetOutcome.exc "boom")
        [("urls", PyVal.arr ["https://a.example"])]).isOk = true ∧
    (get_current_time_handler
        (fun _ => TimeOutcome.valueError "Unknown timezone")
        [("timezone", PyVal.str "utc")]).isOk = true :=
  ⟨registered_tool_handlers_never_raise_on_schema_args.1 _ _
      (fun p hp _ => by rcases List.mem_singleton.mp hp with rfl; rfl),
   registered_tool_handlers_never_raise_on_schema_args.2.1 _ _
      (fun p hp _ => by rcases List.mem_singleton.mp hp with rfl; rfl),
   registered_tool_handlers_never_raise_on_schema_args.2.2.1 _ _
      (fun p hp _ => by rcases List.mem_singleton.mp hp with rfl; rfl),
   registered_tool_handlers_never_raise_on_schema_args.2.2.2.1 _ _
      (fun p hp _ => by
        rcases List.mem_cons.mp hp with rfl | hp2
        · rfl
        · rcases List.mem_singleton.mp hp2 with rfl; rfl)
      (fun p hp _ => by
        rcases List.mem_cons.mp hp with rfl | hp2
        · rfl
        · rcases List.mem_singleton.mp hp2 with rfl; rfl),
   registered_tool_handlers_never_raise_on_schema_args.2.2.2.2.1 _ _
      (fun p hp _ => by rcases List.mem_singleton.mp hp with rfl; rfl),
   registered_tool_handlers_never_raise_on_schema_args.2.2.2.2.2 _ _
      (fun p hp _ => by rcases List.mem_singleton.mp hp with rfl; rfl)⟩

theorem sortByTs_of_sorted {l : List Msg}
    (h : l.Pairwise (fun a b => tsLE a b = true)) : sortByTs l = l := by
  induction h with
  | nil => rfl
  | @cons a l hx _ ih =>
    rw [sortByTs, ih]
    cases l with
    | nil => rfl
    | cons y ys => rw [insertByTs, if_pos (hx y (List.mem_cons_self y ys))]

theorem get_messages_of_chronological (db : List Msg) (session_id : String)
    (limit : Nat) (h : Chronological db) :
    get_messages db session_id limit =
      (sessionMessages db session_id).take limit := by
  have hs : (sessionMessages db session_id).Pairwise
      (fun a b => tsLE a b = true) := List.Pairwise.filter _ h
  unfold get_messages
  rw [sortByTs_of_sorted hs]

theorem send_ctx_prefix (env : LLMEnv)
    (handlers : String → List (String × PyVal) → HandlerOutcome)
    (session_id content : String) (tUser tAi : Nat) (db : List Msg)
    (hc : ¬ pyStripStr content = "") :
    ∃ rest,
      (send_text_message env handlers session_id content tUser tAi db).ctx =
        initialContext
          (get_messages
            (save_message db session_id MessageRole.user (pyStripStr content)
              tUser)
            session_id 20) ++ rest := by
  obtain ⟨d, r, f⟩ := env
  cases d with
  | badRequest emsg =>
    by_cases ht : pyInStr "tool_use_failed" emsg = true
    · cases r with
      | reply c tcs =>
        exact ⟨[], by simp [send_text_message, hc, ht, finishTurn]⟩
      | badRequest e2 =>
        exact ⟨[], by simp [send_text_message, hc, ht, fail500]⟩
      | exn e2 =>
        exact ⟨[], by simp [send_text_message, hc, ht, fail500]⟩
    · exact ⟨[], by simp [send_text_message, hc, ht, fail500]⟩
  | exn e => exact ⟨[], by simp [send_text_message, hc, fail500]⟩
  | reply c tcs =>
    by_cases he : tcs.isEmpty = true
    · exact ⟨[], by simp [send_text_message, hc, he, finishTurn]⟩
    · rw [Bool.not_eq_true] at he
      cases hrun : runToolCalls handlers
          (initialContext
            (get_messages
              (save_message db session_id MessageRole.user
                (pyStripStr content) tUser)
              session_id 20) ++
            [CtxEntry.assistantToolCalls tcs])
          tcs with
      | error e =>
        exact ⟨[CtxEntry.assistantToolCalls tcs],
          by simp [send_text_message, hc, he, hrun, fail500]⟩
      | ok msgs2 =>
        obtain ⟨r2, hr2⟩ := runToolCalls_prefix handlers tcs _ _ hrun
        cases f with
        | reply c2 tcs2 =>
          exact ⟨CtxEntry.assistantToolCalls tcs :: r2,
            by simp [send_text_message, hc, he, hrun, finishTurn, hr2]⟩
        | badRequest e2 =>
          exact ⟨CtxEntry.assistantToolCalls tcs :: r2,
            by simp [send_text_message, hc, he, hrun, fail500, hr2]⟩
        | exn e2 =>
          exact ⟨CtxEntry.assistantToolCalls tcs :: r2,
            by simp [send_text_message, hc, he, hrun, fail500, hr2]⟩

/-- C10: when a session's stored message count is at least `limit`,
`get_messages` returns the `limit` OLDEST messages in ascending timestamp
order (the front of the chronologically sorted list), omitting the most
recent ones; consequently, with more than 20 stored messages,
`send_text_message` builds its model context from the 20 oldest stored
messages — which, in particular, exclude the just-saved user message. -/
theorem get_messages_returns_oldest (db : List Msg)
    (session_id : String) (limit : Nat) (env : LLMEnv)
    (handlers : String → List (String × PyVal) → HandlerOutcome)
    (content : String) (tUser tAi : Nat)
    (hchron : Chronological db)
    (hclock : ∀ m ∈ db, m.timestamp ≤ tUser)
    (hcount : 20 ≤ (sessionMessages db session_id).length)
    (hlim : limit ≤ (sessionMessages db session_id).length)
    (hcontent : ¬ pyStripStr content = "") :
    get_messages db session_id limit =
      (sessionMessages db session_id).take limit ∧
    (get_messages db session_id limit).length = limit ∧
    ∃ rest,
      (send_text_message env handlers session_id content tUser tAi db).ctx =
        (CtxEntry.chat MessageRole.system get_system_prompt ::
          historyCtx ((sessionMessages db session_id).take 20)) ++ rest := by
  have h1 := get_messages_of_chronological db session_id limit hchron
  refine ⟨h1, ?_, ?_⟩
  · rw [h1, List.length_take]
    omega
  · obtain ⟨rest, hctx⟩ :=
      send_ctx_prefix env handlers session_id content tUser tAi db hcontent
    refine ⟨rest, ?_⟩
    rw [hctx]
    have hchron1 : Chronological
        (save_message db session_id MessageRole.user (pyStripStr content)
          tUser) := by
      unfold save_message Chronological
      rw [List.pairwise_append]
      refine ⟨hchron, List.pairwise_singleton _ _, ?_⟩
      intro a ha b hb
      rcases List.mem_singleton.mp hb with rfl
      unfold tsLE
      simpa using hclock a ha
    have h2 := get_messages_of_chronological
      (save_message db session_id MessageRole.user (pyStripStr content)
        tUser)
      session_id 20 hchron1
    rw [initialContext, h2]
    have h3 : sessionMessages
        (save_message db session_id MessageRole.user (pyStripStr content)
          tUser) session_id =
        sessionMessages db session_id ++
          [{ session_id := session_id, role := MessageRole.user,
             content := pyStripStr content, timestamp := tUser }] := by
      unfold sessionMessages save_message
      rw [List.filter_append]
      simp
    rw [h3, List.take_append_of_le_length hcount]

/-- C10 witness: a concrete session with 21 stored messages — the context
is built from the 20 oldest, and a 5-message fetch returns the 5 oldest. -/
theorem get_messages_returns_oldest_witness :
    get_messages dbBig "s" 5 = (sessionMessages dbBig "s").take 5 ∧
    (get_messages dbBig "s" 5).length = 5 ∧
    ∃ rest,
      (send_text_message envPlainText handlersOk "s" "hi" 100 101
        dbBig).ctx =
        (CtxEntry.chat MessageRole.system get_system_prompt ::
          historyCtx ((sessionMessages dbBig "s").take 20)) ++ rest :=
  get_messages_returns_oldest dbBig "s" 5 envPlainText handlersOk "hi" 100
    101 (by unfold Chronological; decide) (by decide) (by decide) (by decide)
    (by decide)

end Vaani
